import Mathlib

/-!
Shallow embedding of the `I2C` class of `Python/PiUtils.py`, a wrapper
around the `smbus` bus driver, together with theorems checking the
repository's specification against it.

Modelling conventions:
* Python integers are `Int`; byte/word values delivered by the C-level
  driver are `Nat` (the driver returns non-negative machine values).
* Each `smbus` call that can raise `IOError` is a parameter of type
  `Drv α := Except Unit α`; `.error ()` models the call raising `IOError`.
* A method run is summarised by `MethodOut`: the Python value returned
  (or the uncaught exception propagated), the diagnostics printed, and
  how many bus transfer calls were actually issued.
* Print statements are recorded as structured `PrintEvent`s carrying the
  values interpolated into the corresponding Python format string.
-/

namespace PiUtils

/-- Python values produced by the I2C methods: `None` (falling off the end
of a function body), ints, bools (`False` is the failure sentinel), and
lists of driver bytes. -/
inductive PyVal where
  | none
  | int (n : Int)
  | bool (b : Bool)
  | list (l : List Nat)
deriving DecidableEq

/-- Python exceptions that escape a method uncaught. -/
inductive PyExn where
  | ioError
  | attributeError (attr : String)
  | exn (msg : String)
deriving DecidableEq

/-- Diagnostic prints, recorded structurally: one constructor per `print`
in the source, carrying the values interpolated into its format string. -/
inductive PrintEvent where
  | i2cException (operation reason : String)
  | deviceError (address : Int)
  | readValue (address result : Int)
  | readRegValue (address result register : Int)
  | readWordValue (address shown register : Int)
  | readBlockHeader (address register : Int)
  | listValues (l : List Nat)
  | wroteValue (value address : Int)
  | wroteRegValue (value register : Int)
  | wroteWordValue (value register : Int)
deriving DecidableEq

/-- Attributes an `I2C` instance carries after a successful `__init__`
(lines 106-124): `self.address` and `self.verbose`.  The class never
assigns `self.debug` or defines `errMsg`. -/
structure I2CState where
  address : Int
  verbose : Bool
deriving DecidableEq

instance {ε α : Type} [DecidableEq ε] [DecidableEq α] : DecidableEq (Except ε α) := fun a b =>
  match a, b with
  | .ok a, .ok b => decidable_of_iff (a = b) (by simp)
  | .error a, .error b => decidable_of_iff (a = b) (by simp)
  | .ok _, .error _ => isFalse (by simp)
  | .error _, .ok _ => isFalse (by simp)

/-- Outcome of one method call: the returned value or uncaught exception,
the prints emitted, and the number of bus transfer calls issued. -/
structure MethodOut where
  ret : Except PyExn PyVal
  prints : List PrintEvent
  busCalls : Nat
deriving DecidableEq

/-- Driver response of an `smbus` call returning `α`: `.error ()` models
the call raising `IOError`. -/
abbrev Drv (α : Type) := Except Unit α

/-- Embeds `I2C.printError` (lines 126-129): prints the device-error
message interpolating `self.address` and returns `False`. -/
def printError (st : I2CState) : PyVal × List PrintEvent :=
  (.bool false, [.deviceError st.address])

/-- Embeds the static `I2C.probe` (lines 85-99).  `openResp` is the
`smbus.SMBus(...)` constructor call (line 89, it can raise `IOError`),
`quickResp` the `bus.write_quick(address)` transfer (line 91).  The
address bounds check sits between the two; an out-of-range address
raises `I2CException`, which is caught, printed, and turned into
`False`. -/
def probe (address : Int) (openResp : Drv Unit) (quickResp : Drv Unit) : MethodOut :=
  match openResp with
  | .error _ => { ret := .ok (.bool false), prints := [], busCalls := 0 }
  | .ok _ =>
      if address ≥ 0 ∧ address ≤ 255 then
        match quickResp with
        | .ok _ => { ret := .ok (.bool true), prints := [], busCalls := 1 }
        | .error _ => { ret := .ok (.bool false), prints := [], busCalls := 1 }
      else
        { ret := .ok (.bool false),
          prints := [.i2cException "initialization" "address is out of range (0-255)"],
          busCalls := 0 }

/-- Embeds `I2C.__init__` (lines 106-124).  For an in-range address the
attributes are set (the `smbus.SMBus` call can raise `IOError`, which no
`except` clause catches).  For an out-of-range address the raised
`I2CException` is caught by a handler whose first statement,
`self.printError()`, reads `self.address` — never assigned on this path —
so the handler itself raises `AttributeError` before printing anything,
and that exception propagates out of the constructor. -/
def initI2C (address : Int) (verbose : Bool) (openResp : Drv Unit) :
    Except PyExn I2CState × List PrintEvent :=
  if address ≥ 0 ∧ address ≤ 255 then
    match openResp with
    | .ok _ => (.ok { address := address, verbose := verbose }, [])
    | .error _ => (.error .ioError, [])
  else
    (.error (.attributeError "address"), [])

/-- Embeds line 140 / line 163: `if result > 127 and signed: result -= 256`. -/
def byteSign (signed : Bool) (r : Nat) : Int :=
  if r > 127 ∧ signed then (r : Int) - 256 else (r : Int)

/-- Embeds line 189: `if result > 32767 and signed: result -= 65536`. -/
def wordSign (signed : Bool) (r : Nat) : Int :=
  if r > 32767 ∧ signed then (r : Int) - 65536 else (r : Int)

/-- Embeds line 188: `result = ((result << 8) & 0xFF00) + (result >> 8)`. -/
def swap16 (r : Nat) : Nat :=
  ((r <<< 8) &&& 0xFF00) + (r >>> 8)

/-- Embeds `I2C.simpleReadByte` (lines 131-148).  Note that in the source
the `return result` statement (line 143) is indented under
`if self.verbose:` (line 141), so with `verbose` unset the method falls
off the end of the `try` block and returns `None`. -/
def simpleReadByte (st : I2CState) (signed : Bool) (drv : Drv Nat) : MethodOut :=
  match drv with
  | .error _ =>
      { ret := .ok (printError st).1, prints := (printError st).2, busCalls := 1 }
  | .ok r =>
      let result := byteSign signed r
      if st.verbose then
        { ret := .ok (.int result), prints := [.readValue st.address result], busCalls := 1 }
      else
        { ret := .ok .none, prints := [], busCalls := 1 }

/-- Embeds `I2C.readByte` (lines 150-172).  An out-of-range register
raises `I2CException`, caught and turned into a print plus `False`.
As in `simpleReadByte`, `return result` (line 167) sits under
`if self.verbose:` (line 164): with `verbose` unset the method
returns `None`. -/
def readByte (st : I2CState) (register : Int) (signed : Bool) (drv : Drv Nat) : MethodOut :=
  if register ≥ 0 ∧ register ≤ 255 then
    match drv with
    | .error _ =>
        { ret := .ok (printError st).1, prints := (printError st).2, busCalls := 1 }
    | .ok r =>
        let result := byteSign signed r
        if st.verbose then
          { ret := .ok (.int result),
            prints := [.readRegValue st.address result register], busCalls := 1 }
        else
          { ret := .ok .none, prints := [], busCalls := 1 }
  else
    { ret := .ok (.bool false),
      prints := [.i2cException "reading" "register address/command is out of range (0-255)"],
      busCalls := 0 }

/-- Embeds `I2C.readWord` (lines 174-198): endianness swap (line 188)
before signedness conversion (line 189); the verbose print shows
`result & 0xFFFF` (Python bitand on a possibly negative int, i.e.
`Int.emod` by 65536).  `return result` (line 193) again sits under
`if self.verbose:` (line 190). -/
def readWord (st : I2CState) (register : Int) (signed bigEndian : Bool)
    (drv : Drv Nat) : MethodOut :=
  if register ≥ 0 ∧ register ≤ 255 then
    match drv with
    | .error _ =>
        { ret := .ok (printError st).1, prints := (printError st).2, busCalls := 1 }
    | .ok r0 =>
        let r1 := if bigEndian then swap16 r0 else r0
        let result := wordSign signed r1
        if st.verbose then
          { ret := .ok (.int result),
            prints := [.readWordValue st.address (result % 65536) register], busCalls := 1 }
        else
          { ret := .ok .none, prints := [], busCalls := 1 }
  else
    { ret := .ok (.bool false),
      prints := [.i2cException "reading" "register address/command is out of range (0-255)"],
      busCalls := 0 }

/-- Embeds `I2C.readListI2C` (lines 200-223).  Line 209 reads
`if n>32: Warning("This exceeds the capabilities of SMBus devices")`:
it constructs a `Warning` exception object and discards it without
raising, so it has no effect whatsoever and the block transfer proceeds
for every `n`.  The `return results` (line 218) sits under
`if self.verbose:` (line 214). -/
def readListI2C (st : I2CState) (register : Int) (n : Int)
    (drv : Drv (List Nat)) : MethodOut :=
  if register ≥ 0 ∧ register ≤ 255 then
    match drv with
    | .error _ =>
        { ret := .ok (printError st).1, prints := (printError st).2, busCalls := 1 }
    | .ok results =>
        if st.verbose then
          { ret := .ok (.list results),
            prints := [.readBlockHeader st.address register, .listValues results],
            busCalls := 1 }
        else
          { ret := .ok .none, prints := [], busCalls := 1 }
  else
    { ret := .ok (.bool false),
      prints := [.i2cException "reading" "register address/command is out of range (0-255)"],
      busCalls := 0 }

/-- Embeds `I2C.readListSMBus` (lines 225-248).  Line 234 raises a bare
`Exception` when `n > 32`; the method's handlers catch only `IOError`
and `I2CException`, so that exception propagates uncaught, before the
register check and before any bus call.  The `return results` (line 243)
sits under `if self.verbose:` (line 239). -/
def readListSMBus (st : I2CState) (register : Int) (n : Int)
    (drv : Drv (List Nat)) : MethodOut :=
  if n > 32 then
    { ret := .error (.exn "This exceeds the capabilities of SMBus devices"),
      prints := [], busCalls := 0 }
  else if register ≥ 0 ∧ register ≤ 255 then
    match drv with
    | .error _ =>
        { ret := .ok (printError st).1, prints := (printError st).2, busCalls := 1 }
    | .ok results =>
        if st.verbose then
          { ret := .ok (.list results),
            prints := [.readBlockHeader st.address register, .listValues results],
            busCalls := 1 }
        else
          { ret := .ok .none, prints := [], busCalls := 1 }
  else
    { ret := .ok (.bool false),
      prints := [.i2cException "reading" "register address/command is out of range (0-255)"],
      busCalls := 0 }

/-- Embeds `I2C.simpleWriteByte` (lines 250-269).  On success there is no
`return` statement at all, so the method returns `None` whether or not
the verbose print runs. -/
def simpleWriteByte (st : I2CState) (value : Int) (drv : Drv Unit) : MethodOut :=
  if value ≥ 0 ∧ value ≤ 255 then
    match drv with
    | .error _ =>
        { ret := .ok (printError st).1, prints := (printError st).2, busCalls := 1 }
    | .ok _ =>
        if st.verbose then
          { ret := .ok .none, prints := [.wroteValue value st.address], busCalls := 1 }
        else
          { ret := .ok .none, prints := [], busCalls := 1 }
  else
    { ret := .ok (.bool false),
      prints := [.i2cException "writing" "value to write is out of range (0-255)"],
      busCalls := 0 }

/-- Embeds `I2C.writeByte` (lines 271-293): register check outside,
value check inside; either failure raises `I2CException`, caught and
turned into a print plus `False`.  Success returns `None`. -/
def writeByte (st : I2CState) (register value : Int) (drv : Drv Unit) : MethodOut :=
  if register ≥ 0 ∧ register ≤ 255 then
    if value ≥ 0 ∧ value ≤ 255 then
      match drv with
      | .error _ =>
          { ret := .ok (printError st).1, prints := (printError st).2, busCalls := 1 }
      | .ok _ =>
          if st.verbose then
            { ret := .ok .none, prints := [.wroteRegValue value register], busCalls := 1 }
          else
            { ret := .ok .none, prints := [], busCalls := 1 }
    else
      { ret := .ok (.bool false),
        prints := [.i2cException "writing" "value to write is out of range (0-255)"],
        busCalls := 0 }
  else
    { ret := .ok (.bool false),
      prints := [.i2cException "writing" "register address/command is out of range (0-255)"],
      busCalls := 0 }

/-- Embeds `I2C.writeWord` (lines 295-318): identical structure to
`writeByte`, including the 0-255 bound on `value` (line 305), even
though a word is two bytes. -/
def writeWord (st : I2CState) (register value : Int) (drv : Drv Unit) : MethodOut :=
  if register ≥ 0 ∧ register ≤ 255 then
    if value ≥ 0 ∧ value ≤ 255 then
      match drv with
      | .error _ =>
          { ret := .ok (printError st).1, prints := (printError st).2, busCalls := 1 }
      | .ok _ =>
          if st.verbose then
            { ret := .ok .none, prints := [.wroteWordValue value register], busCalls := 1 }
          else
            { ret := .ok .none, prints := [], busCalls := 1 }
    else
      { ret := .ok (.bool false),
        prints := [.i2cException "writing" "value to write is out of range (0-255)"],
        busCalls := 0 }
  else
    { ret := .ok (.bool false),
      prints := [.i2cException "writing" "register address/command is out of range (0-255)"],
      busCalls := 0 }

/-- Embeds `I2C.writeListI2C` (lines 320-341).  Its first statement is
`if self.debug:` (line 329), but `__init__` assigns only `address`,
`bus` and `verbose` — no attribute `debug` exists — so every call raises
`AttributeError` immediately; neither `except IOError` nor
`except I2CException` catches it, and no bus call or print ever happens.
(Even past that, line 338 would call `self.errMsg`, also undefined.) -/
def writeListI2C (st : I2CState) (register : Int) (data : List Int)
    (drv : Drv Unit) : MethodOut :=
  { ret := .error (.attributeError "debug"), prints := [], busCalls := 0 }

/-- Embeds `I2C.writeListSMBus` (lines 343-364): same first statement
`if self.debug:` (line 352) as `writeListI2C`, hence the same immediate
uncaught `AttributeError` on every call. -/
def writeListSMBus (st : I2CState) (register : Int) (data : List Int)
    (drv : Drv Unit) : MethodOut :=
  { ret := .error (.attributeError "debug"), prints := [], busCalls := 0 }

/-- Outcome shape demanded for an out-of-range argument: no bus transfer
was issued, a diagnostic was printed, and the sentinel `False` was
returned. -/
abbrev rejectedWithoutBus (o : MethodOut) : Prop :=
  o.busCalls = 0 ∧ o.prints ≠ [] ∧ o.ret = .ok (.bool false)

lemma testBit_ff00 (i : Nat) :
    Nat.testBit 0xFF00 i = (decide (8 ≤ i) && decide (i < 16)) := by
  have h : (0xFF00 : Nat) = (2 ^ 8 - 1) <<< 8 := by decide
  rw [h, Nat.testBit_shiftLeft, Nat.testBit_two_pow_sub_one]
  rcases Nat.lt_or_ge i 8 with hi | hi
  · simp [show ¬ (8 ≤ i) by omega]
  · simp [hi, show i - 8 < 8 ↔ i < 16 by omega]

lemma shl8_and_ff00 (r : Nat) : (r <<< 8) &&& 0xFF00 = (r &&& 0xFF) <<< 8 := by
  apply Nat.eq_of_testBit_eq
  intro i
  have hff : (0xFF : Nat) = 2 ^ 8 - 1 := by norm_num
  simp only [Nat.testBit_and, Nat.testBit_shiftLeft, testBit_ff00, hff,
    Nat.testBit_two_pow_sub_one]
  rcases Nat.lt_or_ge i 8 with hi | hi
  · simp [show ¬ (8 ≤ i) by omega]
  · simp [hi, show i - 8 < 8 ↔ i < 16 by omega]

/-- Arithmetic form of the byte swap: low byte to the high slot, high
bits (beyond the low byte) shifted down. -/
lemma swap16_eq (r : Nat) : swap16 r = r % 256 * 256 + r / 256 := by
  unfold swap16
  rw [shl8_and_ff00]
  have hff : (0xFF : Nat) = 2 ^ 8 - 1 := by norm_num
  rw [hff, Nat.and_pow_two_sub_one_eq_mod r 8, Nat.shiftLeft_eq, Nat.shiftRight_eq_div_pow]

/-- Line 140 with `signed=True` written without the Bool conjunct. -/
lemma byteSign_true (r : Nat) :
    byteSign true r = if r > 127 then (r : Int) - 256 else (r : Int) := by
  simp [byteSign]

/-- Line 189 with `signed=True` written without the Bool conjunct. -/
lemma wordSign_true (r : Nat) :
    wordSign true r = if r > 32767 then (r : Int) - 65536 else (r : Int) := by
  simp [wordSign]

/-- C1: the spec claims that every read operation whose arguments are in
range returns the transferred value when the driver call succeeds, for
every setting of the verbose flag.  The code violates this: in all five
read methods the `return result` statement is indented under
`if self.verbose:`, so with verbose unset each method falls off the end
of its body and returns `None`; the value is returned only when verbose
is set.  Evaluated here at the failing inputs. -/
theorem read_result_lost_when_not_verbose :
    (readByte ⟨64, false⟩ 0 false (.ok 5)).ret = .ok .none ∧
    (readWord ⟨64, false⟩ 0 false false (.ok 5)).ret = .ok .none ∧
    (readListI2C ⟨64, false⟩ 0 2 (.ok [1, 2])).ret = .ok .none ∧
    (readListSMBus ⟨64, false⟩ 0 2 (.ok [1, 2])).ret = .ok .none ∧
    (simpleReadByte ⟨64, false⟩ false (.ok 5)).ret = .ok .none ∧
    (readByte ⟨64, true⟩ 0 false (.ok 5)).ret = .ok (.int 5) := by
  refine ⟨rfl, rfl, rfl, rfl, rfl, rfl⟩

/-- C2: the spec claims two runs of a read operation differing only in
the verbose flag and observing the same driver response return the same
value.  The code violates this: with the same driver byte 5, `readByte`
returns 5 when verbose is set and `None` when it is not, because
`return result` sits inside the verbose-guarded block. -/
theorem verbose_flag_changes_returned_value :
    (readByte ⟨64, true⟩ 0 false (.ok 5)).ret ≠
      (readByte ⟨64, false⟩ 0 false (.ok 5)).ret := by
  decide

/-- C3 counterexample: the claim says every listed operation, given an
out-of-range register, prints a diagnostic and returns `False`.  At
register 300 (out of range) with `n = 33`, `readListSMBus` instead
raises an uncaught bare `Exception` before the register check: nothing
is printed and no `False` is returned. -/
theorem readListSMBus_out_of_range_silent_raise :
    readListSMBus ⟨64, false⟩ 300 33 (.ok []) =
      { ret := .error (.exn "This exceeds the capabilities of SMBus devices"),
        prints := [], busCalls := 0 } := rfl

/-- C3 (amended): for every listed operation, an argument outside 0-255
means the bus transfer is not attempted, a diagnostic is printed, and
the sentinel `False` is returned — with two provisos forced by the code:
for `probe` this assumes the `smbus.SMBus(...)` open itself succeeds
(on an open failure the `False` return is silent), and for
`readListSMBus` it requires `n ≤ 32` (for larger `n` an uncaught
`Exception` preempts the register check). -/
theorem out_of_range_rejected (st : I2CState) (addr regOut regIn v vOut n nAny : Int)
    (signed bigEndian : Bool) (drvB drvW : Drv Nat) (drvL : Drv (List Nat))
    (quick drvU : Drv Unit)
    (haddr : addr < 0 ∨ addr > 255)
    (hregOut : regOut < 0 ∨ regOut > 255)
    (hregIn : regIn ≥ 0 ∧ regIn ≤ 255)
    (hvOut : vOut < 0 ∨ vOut > 255)
    (hn : n ≤ 32) :
    rejectedWithoutBus (probe addr (.ok ()) quick) ∧
    rejectedWithoutBus (readByte st regOut signed drvB) ∧
    rejectedWithoutBus (readWord st regOut signed bigEndian drvW) ∧
    rejectedWithoutBus (readListI2C st regOut nAny drvL) ∧
    rejectedWithoutBus (readListSMBus st regOut n drvL) ∧
    rejectedWithoutBus (simpleWriteByte st vOut drvU) ∧
    rejectedWithoutBus (writeByte st regOut v drvU) ∧
    rejectedWithoutBus (writeByte st regIn vOut drvU) ∧
    rejectedWithoutBus (writeWord st regOut v drvU) ∧
    rejectedWithoutBus (writeWord st regIn vOut drvU) := by
  refine ⟨?_, ?_, ?_, ?_, ?_, ?_, ?_, ?_, ?_, ?_⟩
  · simp only [probe]
    rw [if_neg (by omega)]
    exact ⟨rfl, by simp, rfl⟩
  · simp only [readByte]
    rw [if_neg (by omega)]
    exact ⟨rfl, by simp, rfl⟩
  · simp only [readWord]
    rw [if_neg (by omega)]
    exact ⟨rfl, by simp, rfl⟩
  · simp only [readListI2C]
    rw [if_neg (by omega)]
    exact ⟨rfl, by simp, rfl⟩
  · simp only [readListSMBus]
    rw [if_neg (by omega), if_neg (by omega)]
    exact ⟨rfl, by simp, rfl⟩
  · simp only [simpleWriteByte]
    rw [if_neg (by omega)]
    exact ⟨rfl, by simp, rfl⟩
  · simp only [writeByte]
    rw [if_neg (by omega)]
    exact ⟨rfl, by simp, rfl⟩
  · simp only [writeByte]
    rw [if_pos hregIn, if_neg (by omega)]
    exact ⟨rfl, by simp, rfl⟩
  · simp only [writeWord]
    rw [if_neg (by omega)]
    exact ⟨rfl, by simp, rfl⟩
  · simp only [writeWord]
    rw [if_pos hregIn, if_neg (by omega)]
    exact ⟨rfl, by simp, rfl⟩

/-- Witness for `out_of_range_rejected` at address 256, register 300,
value 300, `n = 5`. -/
theorem out_of_range_rejected_witness :
    ((256 : Int) < 0 ∨ (256 : Int) > 255) ∧
    rejectedWithoutBus (probe 256 (.ok ()) (.ok ())) ∧
    rejectedWithoutBus (readByte ⟨64, false⟩ 300 false (.ok 5)) ∧
    rejectedWithoutBus (writeWord ⟨64, false⟩ 0 300 (.ok ())) := by
  have h := out_of_range_rejected ⟨64, false⟩ 256 300 0 7 300 5 9 false false
    (.ok 5) (.ok 5) (.ok []) (.ok ()) (.ok ())
    (Or.inr (by decide)) (Or.inr (by decide)) (by decide) (Or.inr (by decide)) (by decide)
  exact ⟨Or.inr (by decide), h.1, h.2.1, h.2.2.2.2.2.2.2.2.2⟩

/-- C4: the spec claims every read and write operation reacts to a driver
`IOError` by printing an error message and returning `False`, in
particular `writeListI2C` and `writeListSMBus`.  For those two the code
violates it: their first statement reads `self.debug`, an attribute
`__init__` never assigns, so every call raises an uncaught
`AttributeError` before any bus call (and even past that, the `IOError`
handler would call `self.errMsg`, which is also undefined).  The last
two conjuncts show the intended print-and-return pattern does hold for
a non-list operation. -/
theorem writeList_attribute_error :
    writeListI2C ⟨64, false⟩ 0 [1, 2] (.ok ()) =
      { ret := .error (.attributeError "debug"), prints := [], busCalls := 0 } ∧
    writeListSMBus ⟨64, false⟩ 0 [1, 2] (.ok ()) =
      { ret := .error (.attributeError "debug"), prints := [], busCalls := 0 } ∧
    (simpleWriteByte ⟨64, false⟩ 5 (.error ())).ret = .ok (.bool false) ∧
    (simpleWriteByte ⟨64, false⟩ 5 (.error ())).prints = [.deviceError 64] := by
  refine ⟨rfl, rfl, rfl, rfl⟩

/-- C5: the spec claims block transfers with `n > 32` do not transfer
and fail with the `False` sentinel under the print-and-return pattern.
The code violates it twice at `n = 33`: `readListI2C` constructs a
`Warning` without raising it, so the 33-byte transfer proceeds and the
values are returned; `readListSMBus` raises a bare `Exception` that
neither of its handlers catches, which propagates uncaught instead of
yielding the sentinel. -/
theorem block_limit_not_enforced :
    (readListI2C ⟨64, true⟩ 0 33 (.ok (List.replicate 33 7))).busCalls = 1 ∧
    (readListI2C ⟨64, true⟩ 0 33 (.ok (List.replicate 33 7))).ret
        = .ok (.list (List.replicate 33 7)) ∧
    readListSMBus ⟨64, true⟩ 0 33 (.ok (List.replicate 33 7)) =
      { ret := .error (.exn "This exceeds the capabilities of SMBus devices"),
        prints := [], busCalls := 0 } := by
  refine ⟨rfl, rfl, rfl⟩

/-- C6 counterexample: the claim says `readByte` with `signed=True`
returns `r - 256` for a driver byte `r > 127`; with verbose unset and
driver byte 200 it returns `None`, not `-56`, because `return result`
sits inside the verbose-guarded block. -/
theorem signed_read_not_returned_when_not_verbose :
    (readByte ⟨64, false⟩ 0 true (.ok 200)).ret = .ok .none ∧
    (readByte ⟨64, false⟩ 0 true (.ok 200)).ret ≠ .ok (.int (200 - 256)) := by
  exact ⟨rfl, by decide⟩

/-- C6 (amended): when verbose is enabled, `simpleReadByte` and
`readByte` with `signed=True` return `r - 256` for every driver byte
`r > 127` and `r` unchanged for `r ≤ 127`, and `readWord` with
`signed=True` returns `r - 65536` for every driver word `r > 32767`,
so the signed conversions lie in `[-128, 127]` and `[-32768, 32767]`
respectively. -/
theorem signed_conversion_verbose (addr reg : Int) (hreg : reg ≥ 0 ∧ reg ≤ 255)
    (r w : Nat) (hr : r ≤ 255) (hw : w ≤ 65535) :
    (simpleReadByte ⟨addr, true⟩ true (.ok r)).ret
        = .ok (.int (if r > 127 then (r : Int) - 256 else (r : Int))) ∧
    (readByte ⟨addr, true⟩ reg true (.ok r)).ret
        = .ok (.int (if r > 127 then (r : Int) - 256 else (r : Int))) ∧
    (readWord ⟨addr, true⟩ reg true false (.ok w)).ret
        = .ok (.int (if w > 32767 then (w : Int) - 65536 else (w : Int))) ∧
    (-128 ≤ byteSign true r ∧ byteSign true r ≤ 127) ∧
    (-32768 ≤ wordSign true w ∧ wordSign true w ≤ 32767) := by
  refine ⟨?_, ?_, ?_, ?_, ?_⟩
  · simp [simpleReadByte, byteSign_true]
  · simp only [readByte]
    rw [if_pos hreg]
    simp [byteSign_true]
  · simp only [readWord]
    rw [if_pos hreg]
    simp [wordSign_true]
  · rw [byteSign_true]
    split <;> omega
  · rw [wordSign_true]
    split <;> omega

/-- Witness for `signed_conversion_verbose` at driver byte 200 and
driver word 40000. -/
theorem signed_conversion_verbose_witness :
    ((0 : Int) ≥ 0 ∧ (0 : Int) ≤ 255) ∧
    (readByte ⟨64, true⟩ 0 true (.ok 200)).ret = .ok (.int (-56)) ∧
    (readWord ⟨64, true⟩ 0 true false (.ok 40000)).ret = .ok (.int (-25536)) := by
  have h := signed_conversion_verbose 64 0 (by decide) 200 40000 (by decide) (by decide)
  refine ⟨by decide, ?_, ?_⟩
  · rw [h.2.1]; decide
  · rw [h.2.2.1]; decide

/-- C7: for every 16-bit driver word, `readWord` with `bigEndian=True`
applies the byte swap `((r << 8) & 0xFF00) + (r >> 8)` before the
signedness conversion — the returned value is the signedness conversion
of the swapped word — and the swap is an involution on 16-bit words. -/
theorem readWord_swaps_before_sign (addr reg : Int) (hreg : reg ≥ 0 ∧ reg ≤ 255)
    (signed : Bool) (r : Nat) (hr : r ≤ 65535) :
    (readWord ⟨addr, true⟩ reg signed true (.ok r)).ret
        = .ok (.int (wordSign signed (swap16 r))) ∧
    swap16 (swap16 r) = r := by
  constructor
  · simp only [readWord]
    rw [if_pos hreg]
    simp
  · rw [swap16_eq, swap16_eq]
    omega

/-- Witness for `readWord_swaps_before_sign` at word 0x1234, whose
swap is 0x3412. -/
theorem readWord_swaps_before_sign_witness :
    ((0 : Int) ≥ 0 ∧ (0 : Int) ≤ 255) ∧ (0x1234 ≤ 65535) ∧
    (readWord ⟨64, true⟩ 0 false true (.ok 0x1234)).ret = .ok (.int 0x3412) ∧
    swap16 (swap16 0x1234) = 0x1234 := by
  have h := readWord_swaps_before_sign 64 0 (by decide) false 0x1234 (by decide)
  refine ⟨by decide, by decide, ?_, h.2⟩
  rw [h.1]; decide

/-- C8: `probe` with an in-range address returns `True` exactly when the
driver's quick write succeeds, and returns `False` when the driver
raises `IOError` (assuming the bus device opens). -/
theorem probe_true_iff_quick_ok (addr : Int) (h : addr ≥ 0 ∧ addr ≤ 255)
    (quick : Drv Unit) :
    ((probe addr (.ok ()) quick).ret = .ok (.bool true) ↔ quick = .ok ()) ∧
    ((probe addr (.ok ()) quick).ret = .ok (.bool false) ↔ quick = .error ()) := by
  cases quick with
  | ok u =>
      cases u
      simp only [probe]
      rw [if_pos h]
      exact ⟨by simp, by simp⟩
  | error e =>
      cases e
      simp only [probe]
      rw [if_pos h]
      exact ⟨by simp, by simp⟩

/-- Witness for `probe_true_iff_quick_ok` at address 64 with a
successful quick write. -/
theorem probe_true_iff_quick_ok_witness :
    ((64 : Int) ≥ 0 ∧ (64 : Int) ≤ 255) ∧
    ((probe 64 (.ok ()) (.ok ())).ret = .ok (.bool true) ↔
      (.ok () : Drv Unit) = .ok ()) := by
  exact ⟨by decide, (probe_true_iff_quick_ok 64 (by decide) (.ok ())).1⟩

/-- C9: `writeWord` accepts only byte-sized values despite writing a
two-byte word: for every value in 256-65535 with an in-range register,
no bus write is performed, the out-of-range diagnostic is printed, and
the sentinel `False` is returned. -/
theorem writeWord_rejects_multibyte_value (st : I2CState) (reg v : Int)
    (hreg : reg ≥ 0 ∧ reg ≤ 255) (hv : 256 ≤ v ∧ v ≤ 65535) (drv : Drv Unit) :
    writeWord st reg v drv =
      { ret := .ok (.bool false),
        prints := [.i2cException "writing" "value to write is out of range (0-255)"],
        busCalls := 0 } := by
  unfold writeWord
  rw [if_pos hreg, if_neg (by omega)]

/-- Witness for `writeWord_rejects_multibyte_value` at value 300. -/
theorem writeWord_rejects_multibyte_value_witness :
    ((256 : Int) ≤ 300 ∧ (300 : Int) ≤ 65535) ∧
    writeWord ⟨64, false⟩ 0 300 (.ok ()) =
      { ret := .ok (.bool false),
        prints := [.i2cException "writing" "value to write is out of range (0-255)"],
        busCalls := 0 } := by
  exact ⟨by decide,
    writeWord_rejects_multibyte_value ⟨64, false⟩ 0 300 (by decide) (by decide) (.ok ())⟩

/-- C10: constructing `I2C` with an out-of-range address never yields an
initialized object and does not follow the print-and-return pattern:
the exception handler calls `printError`, which reads `self.address`
before any assignment to it, so the constructor propagates an
`AttributeError` (and prints nothing). -/
theorem init_out_of_range_attribute_error (addr : Int) (verbose : Bool)
    (openResp : Drv Unit) (h : addr < 0 ∨ addr > 255) :
    initI2C addr verbose openResp = (.error (.attributeError "address"), []) := by
  unfold initI2C
  rw [if_neg (by omega)]

/-- Witness for `init_out_of_range_attribute_error` at address 256. -/
theorem init_out_of_range_attribute_error_witness :
    ((256 : Int) < 0 ∨ (256 : Int) > 255) ∧
    initI2C 256 false (.ok ()) = (.error (.attributeError "address"), []) := by
  exact ⟨Or.inr (by decide),
    init_out_of_range_attribute_error 256 false (.ok ()) (Or.inr (by decide))⟩

end PiUtils
